import Mathlib

/-!
Verification development for the KeepKey n8n node's device transport and
session-management layer.  The definitions below are shallow embeddings of
the TypeScript source: bytes are `Nat` (kept below 256 by construction),
buffers are `List Nat`, strings are Lean `String`s, and the external world
(HTTP daemon, physical device) is passed in explicitly as an environment
record.  Fallible operations return `Except String` carrying the thrown
error message.
-/

set_option maxRecDepth 4096

namespace KeepKeySpec

/-! ## USB HID framing (`UsbTransport.sendMessage`)

`USB_CONFIG.PACKET_SIZE = 64`.  The serializer builds a 7-byte header
`[0x3F][type, 2 bytes BE][length, 4 bytes BE]`, concatenates the payload,
and copies 63-byte slices of that stream into 64-byte packets whose byte 0
is set to `0x3F` (the loop `for (i = 0; i < fullMessage.length; i += 63)`).
The reader loop accumulates response packets until the byte count reaches
the length declared in the first packet, treating the first packet as
`[7-byte header][payload]` and later packets as `[marker][payload]`, then
concatenates with `Buffer.concat(responsePackets, expectedLength)` (which
truncates or zero-pads to exactly `expectedLength`). -/

def PACKET_SIZE : Nat := 64

/-- The 7-byte header `[0x3F][messageType BE16][length BE32]` built by
`sendMessage` via `writeUInt16BE` / `writeUInt32BE`. -/
def messageHeader (messageType len : Nat) : List Nat :=
  [0x3f, messageType / 256 % 256, messageType % 256,
   len / 16777216 % 256, len / 65536 % 256, len / 256 % 256, len % 256]

/-- One 64-byte packet: marker byte, then a ≤63-byte slice of the stream,
zero-padded (`Buffer.alloc` zero-fills). -/
def mkPacket (chunk : List Nat) : List Nat :=
  0x3f :: (chunk ++ List.replicate (63 - chunk.length) 0)

/-- The packet list produced by the send half of `sendMessage`: the loop
index runs `i = 0, 63, 126, …` while `i < fullMessage.length`, and each
packet receives `fullMessage[i .. i+63)`. -/
def chunkPackets (fullMessage : List Nat) : List (List Nat) :=
  (List.range ((fullMessage.length + 62) / 63)).map
    (fun i => mkPacket ((fullMessage.drop (63 * i)).take 63))

/-- The serialized packets `sendMessage` writes for a message type and
payload: header then payload, chunked. -/
def sendMessagePackets (messageType : Nat) (message : List Nat) : List (List Nat) :=
  chunkPackets (messageHeader messageType message.length ++ message)

/-- `Buffer.readUInt16BE(off)`. -/
def readUInt16BE (p : List Nat) (off : Nat) : Nat :=
  p.getD off 0 * 256 + p.getD (off + 1) 0

/-- `Buffer.readUInt32BE(off)`. -/
def readUInt32BE (p : List Nat) (off : Nat) : Nat :=
  ((p.getD off 0 * 256 + p.getD (off + 1) 0) * 256 + p.getD (off + 2) 0) * 256
    + p.getD (off + 3) 0

/-- `Buffer.concat(chunks, totalLength)`: copies the chunks in order into a
buffer of exactly `totalLength` bytes, truncating the excess and
zero-filling the remainder. -/
def bufferConcat (chunks : List (List Nat)) (totalLength : Nat) : List Nat :=
  (chunks.flatten).take totalLength
    ++ List.replicate (totalLength - (chunks.flatten).length) 0

/-- The read loop of `sendMessage`, with the successive `read()` results
supplied as the list `incoming`.  State mirrors the loop's local variables
`responsePackets` / `totalLength` / `expectedLength` / `responseType`.
A zero-length packet breaks the loop, as does reaching the declared
length; exhausting `incoming` without a break means the loop would issue
another blocking `read()`, which we model as `none`. -/
def reassembleLoop : List (List Nat) → List (List Nat) → Nat → Nat → Nat →
    Option (Nat × List Nat)
  | [], _, _, _, _ => none
  | p :: rest, chunks, total, expected, rtype =>
    if p.length = 0 then
      some (rtype, bufferConcat chunks expected)
    else
      let first := chunks.isEmpty && (p.getD 0 0 == 0x3f)
      let chunks2 := if first then chunks ++ [p.drop 7] else chunks ++ [p.drop 1]
      let total2 := if first then total + (p.length - 7) else total + (p.length - 1)
      let expected2 := if first then readUInt32BE p 3 else expected
      let rtype2 := if first then readUInt16BE p 1 else rtype
      if expected2 ≤ total2 then
        some (rtype2, bufferConcat chunks2 expected2)
      else
        reassembleLoop rest chunks2 total2 expected2 rtype2

/-- The receive half of `sendMessage`: run the read loop from the initial
state and return `(responseType, response)`. -/
def reassemble (incoming : List (List Nat)) : Option (Nat × List Nat) :=
  reassembleLoop incoming [] 0 0 0

/-- A well-formed 64-byte response packet declaring a 100-byte payload
(type 17 = `Features`) but carrying only its first 57 bytes; the device
then "disconnects", i.e. the next `read()` returns a zero-length buffer. -/
def shortReadFirstPacket : List Nat :=
  0x3f :: 0 :: 17 :: 0 :: 0 :: 0 :: 100 :: List.replicate 57 0xBB

/-- C1 — the USB framing round trip fails on the 1-byte payload `[0xAA]`
with message type 0 (`Initialize`): the serializer prepends an extra
`0x3F` marker in front of the 7-byte header (which already starts with
the marker), so the reader parses the declared length from shifted bytes
as 0 and returns the empty payload instead of `[0xAA]`. -/
theorem usb_framing_roundtrip_fails_at_one_byte :
    reassemble (sendMessagePackets 0 [0xAA]) = some (0x3f00, []) := by
  decide

/-- C2 counterexample — a zero-length packet read before the declared
100-byte payload is complete does not fail the exchange: the loop breaks
and `sendMessage` returns a message (the 57 received bytes zero-padded to
the declared 100), contradicting the claim that this raises a
`TransportError` rather than returning a message. -/
theorem usb_reassembly_short_read_returns_message :
    reassemble [shortReadFirstPacket, []] =
      some (17, List.replicate 57 0xBB ++ List.replicate 43 0) := by
  decide

/-- C2 amended — whenever a zero-length packet is read while the payload
received so far (57 bytes from a 64-byte first packet) is short of the
declared length, the read loop terminates normally and returns the partial
payload zero-padded to the declared length; no error is raised. -/
theorem usb_reassembly_zero_length_breaks (p : List Nat) (tail : List (List Nat))
    (hlen : p.length = PACKET_SIZE) (hmark : p.getD 0 0 = 0x3f)
    (hexp : 57 < readUInt32BE p 3) :
    reassemble (p :: [] :: tail) =
      some (readUInt16BE p 1, bufferConcat [p.drop 7] (readUInt32BE p 3)) := by
  have hne : ¬ p.length = 0 := by rw [hlen]; decide
  have hnle : ¬ readUInt32BE p 3 ≤ 0 + (p.length - 7) := by
    rw [hlen]; simpa [PACKET_SIZE] using Nat.not_le.mpr hexp
  have hm2 : p[0]?.getD 0 = 0x3f := by simpa [List.getD] using hmark
  simp [reassemble, reassembleLoop, hne, hm2, hnle]

/-- Witness for `usb_reassembly_zero_length_breaks` at the concrete short
read stream. -/
theorem usb_reassembly_zero_length_breaks_witness :
    reassemble [shortReadFirstPacket, []] =
      some (readUInt16BE shortReadFirstPacket 1,
        bufferConcat [shortReadFirstPacket.drop 7] (readUInt32BE shortReadFirstPacket 3)) := by
  exact usb_reassembly_zero_length_breaks shortReadFirstPacket []
    (by decide) (by decide) (by decide)

/-! ## Protocol message type codes (`MESSAGE_TYPES`) and device events
(`DEVICE_EVENTS`), from `constants/events.ts`. -/

namespace MT

def Initialize : Nat := 0
def Ping : Nat := 1
def Success : Nat := 2
def Failure : Nat := 3
def ChangePin : Nat := 4
def WipeDevice : Nat := 5
def GetEntropy : Nat := 9
def ResetDevice : Nat := 14
def Features : Nat := 17
def PinMatrixRequest : Nat := 18
def PinMatrixAck : Nat := 19
def Cancel : Nat := 20
def ClearSession : Nat := 24
def ApplySettings : Nat := 25
def ButtonRequest : Nat := 26
def ButtonAck : Nat := 27
def PassphraseRequest : Nat := 41
def PassphraseAck : Nat := 42
def RecoveryDevice : Nat := 45
def WordRequest : Nat := 46
def WordAck : Nat := 47

end MT

namespace EV

def CONNECTED : String := "device:connected"
def DISCONNECTED : String := "device:disconnected"
def BUTTON_REQUEST : String := "device:buttonRequest"
def PIN_REQUEST : String := "device:pinRequest"
def PASSPHRASE_REQUEST : String := "device:passphraseRequest"
def WORD_REQUEST : String := "device:wordRequest"
def FAILURE : String := "device:failure"

end EV

/-! ## Bridge transport (`BridgeTransport`, part_007)

The bridge daemon is modelled as an explicit environment: the device list
its `/enumerate` endpoint currently reports, and the fresh session token a
`POST /acquire/{path}/{previous}` hands out. -/

structure BridgeDevice where
  path : String
  session : Option String := none
deriving DecidableEq, Repr

structure BTState where
  session : Option String := none
  device : Option BridgeDevice := none
  connected : Bool := false
deriving DecidableEq, Repr

structure BridgeDaemon where
  enumerate : List BridgeDevice
  acquireToken : String
deriving DecidableEq, Repr

namespace BridgeTransport

/-- `BridgeTransport.connect`: enumerate, select the requested device (or
the first one), acquire a session, store it. -/
def connect (env : BridgeDaemon) (st : BTState) (devicePath : Option String) :
    Except String (BridgeDevice × BTState) :=
  match env.enumerate with
  | [] => .error "No KeepKey device found via Bridge"
  | d0 :: rest =>
    let target := match devicePath with
      | some p => (d0 :: rest).find? (fun (d : BridgeDevice) => d.path == p)
      | none => some d0
    match target with
    | none => .error ("Device not found: " ++ devicePath.getD "")
    | some t =>
      let s := env.acquireToken
      let dev : BridgeDevice := { t with session := some s }
      .ok (dev, { st with session := some s, device := some dev, connected := true })

/-- The session token `BridgeTransport.call` places in the URL of its
`POST /call/{session}` request.  `call` reads `this.session` directly and
performs no enumeration and no re-acquisition; with no session it throws
`No active session` before any request. -/
def callSessionUsed (st : BTState) : Except String String :=
  match st.session with
  | none => .error "No active session"
  | some s => .ok s

/-- `BridgeTransport.refreshSession`: re-enumerate; error (and mark
disconnected) if the held device path vanished; re-acquire when the
daemon-reported session differs from the held one; otherwise return the
held session unchanged. -/
def refreshSession (env : BridgeDaemon) (st : BTState) :
    Except String String × BTState :=
  match st.device with
  | none => (.error "No device connected", st)
  | some dev =>
    match env.enumerate.find? (fun d => d.path == dev.path) with
    | none => (.error "Device disconnected", { st with connected := false })
    | some cur =>
      if cur.session = st.session then
        (.ok (st.session.getD ""), st)
      else
        let s := env.acquireToken
        (.ok s,
         { st with session := some s, device := some { dev with session := some s } })

end BridgeTransport

/-- A bridge transport holding session `s1` for device path `p`. -/
def staleBridgeState : BTState :=
  { session := some "s1", device := some { path := "p", session := some "s1" },
    connected := true }

/-- A daemon whose enumeration now reports session `s2` for path `p`
(another client acquired the device) and whose next acquire returns `s3`. -/
def rotatedDaemon : BridgeDaemon :=
  { enumerate := [{ path := "p", session := some "s2" }], acquireToken := "s3" }

/-- C3 counterexample — the daemon reports session `s2` for the held path
while the transport holds `s1`, yet `call()` posts with the stale `s1`:
no re-acquisition happens before sending (an explicit `refreshSession`
would have produced `s3`). -/
theorem bridge_call_uses_stale_session :
    staleBridgeState.session = some "s1" ∧
    rotatedDaemon.enumerate = [{ path := "p", session := some "s2" }] ∧
    BridgeTransport.callSessionUsed staleBridgeState = .ok "s1" ∧
    (BridgeTransport.refreshSession rotatedDaemon staleBridgeState).1 = .ok "s3" := by
  refine ⟨rfl, rfl, rfl, rfl⟩

/-- C3 amended — `call()` always posts with the held session token, even
when the daemon-reported session differs; re-acquisition happens only when
`refreshSession` is invoked explicitly, and then exactly when the reported
session differs from the held one. -/
theorem bridge_refresh_only_on_explicit_call (env : BridgeDaemon) (st : BTState)
    (dev cur : BridgeDevice) (s : String)
    (hdev : st.device = some dev)
    (hsess : st.session = some s)
    (hcur : env.enumerate.find? (fun d => d.path == dev.path) = some cur)
    (hne : cur.session ≠ some s) :
    BridgeTransport.callSessionUsed st = .ok s ∧
    (BridgeTransport.refreshSession env st).1 = .ok env.acquireToken ∧
    (BridgeTransport.refreshSession env st).2.session = some env.acquireToken := by
  refine ⟨?_, ?_, ?_⟩ <;>
    simp [BridgeTransport.callSessionUsed, BridgeTransport.refreshSession,
      hdev, hsess, hcur, hne]

/-- Witness for `bridge_refresh_only_on_explicit_call` at the rotated
daemon and the stale transport state. -/
theorem bridge_refresh_only_on_explicit_call_witness :
    BridgeTransport.callSessionUsed staleBridgeState = .ok "s1" ∧
    (BridgeTransport.refreshSession rotatedDaemon staleBridgeState).1 =
      .ok rotatedDaemon.acquireToken ∧
    (BridgeTransport.refreshSession rotatedDaemon staleBridgeState).2.session =
      some rotatedDaemon.acquireToken :=
  bridge_refresh_only_on_explicit_call rotatedDaemon staleBridgeState
    { path := "p", session := some "s1" } { path := "p", session := some "s2" }
    "s1" rfl rfl rfl (by decide)

/-! ## KeepKey Client (`KeepKeyClient`, part_006)

The client's instance fields become `ClientState`; the external world (the
device reachable through the selected transport, the desktop `/devices`
endpoint and the bridge daemon) becomes `ClientEnv`.  Every operation
returns its thrown-or-returned value, the updated state, the protocol
messages sent to the device, and the events emitted. -/

inductive ConnType
  | usbHid
  | webusb
  | keepkeyDesktop
  | keepkeyBridge
deriving DecidableEq, Repr

structure DeviceFeatures where
  vendor : String := ""
  major_version : Nat := 0
  minor_version : Nat := 0
  patch_version : Nat := 0
  bootloader_mode : Bool := false
  device_id : String := ""
  pin_protection : Bool := false
  passphrase_protection : Bool := false
  language : String := ""
  label : String := ""
  initialized : Bool := false
  model : String := ""
deriving DecidableEq, Repr

structure KKDevice where
  path : String
  vendorId : Nat
  productId : Nat
  label : Option String := none
  features : Option DeviceFeatures := none
deriving DecidableEq, Repr

/-- `TransportConfig` after the constructor's defaulting
(`vendorId || USB_CONFIG.VENDOR_ID`, etc.). -/
structure TransportConfig where
  connectionType : ConnType
  devicePath : Option String := none
  vendorId : Nat := 0x2b24
  productId : Nat := 0x0001
  bridgeUrl : Option String := none
  desktopUrl : Option String := none
  apiKey : Option String := none
  timeout : Nat := 30000
deriving DecidableEq, Repr

structure ClientState where
  config : TransportConfig
  device : Option KKDevice := none
  connected : Bool := false
  sessionId : Option String := none
deriving DecidableEq, Repr

inductive JsValue
  | s (v : String)
  | n (v : Nat)
  | b (v : Bool)
  | undef
deriving DecidableEq, Repr

abbrev Params := List (String × JsValue)

/-- A response payload: either data the call site casts to
`DeviceFeatures`, or an arbitrary key-value object. -/
inductive RespPayload
  | features (f : DeviceFeatures)
  | raw (kv : Params)
deriving DecidableEq, Repr

structure MsgResponse where
  type : Nat
  message : RespPayload
deriving DecidableEq, Repr

/-- The unchecked TypeScript cast `response.message as DeviceFeatures`:
a non-features payload is read back field-by-field as defaults. -/
def featuresOfPayload : RespPayload → DeviceFeatures
  | .features f => f
  | .raw _ => {}

/-- The external world a client operation interacts with: the response the
active transport produces for one protocol exchange, the device list the
desktop `/devices` endpoint returns, the bridge daemon's `/enumerate`
listing, and the session token its `/acquire` hands out. -/
structure ClientEnv where
  call : Nat → Params → Except String MsgResponse
  desktopDevices : List KKDevice
  bridgeEnumerate : List BridgeDevice
  acquireToken : String

/-- Outcome of one client operation: the value returned (or the error
thrown), the updated client state, the protocol messages sent to the
device, and the events emitted. -/
structure ClientResult (α : Type) where
  result : Except String α
  state : ClientState
  sent : List (Nat × Params)
  events : List String

def exOk {α : Type} : Except String α → Bool
  | .ok _ => true
  | .error _ => false

def exErrMsg {α : Type} : Except String α → String
  | .error e => e
  | .ok _ => ""

namespace KeepKeyClient

/-- `KeepKeyClient.call`: throws `Device not connected` before any
transport operation when the connected flag is down, otherwise dispatches
on the configured connection type (the USB-HID and WebUSB branches throw
unconditionally in this source). -/
def call (env : ClientEnv) (st : ClientState) (type : Nat) (params : Params) :
    ClientResult MsgResponse :=
  if st.connected = false then
    ⟨.error "Device not connected", st, [], []⟩
  else
    match st.config.connectionType with
    | .usbHid => ⟨.error "USB HID transport requires native module", st, [], []⟩
    | .webusb => ⟨.error "WebUSB transport requires browser environment", st, [], []⟩
    | .keepkeyDesktop => ⟨env.call type params, st, [(type, params)], []⟩
    | .keepkeyBridge => ⟨env.call type params, st, [(type, params)], []⟩

/-- `sendPin`: a plain `call` with a `PinMatrixAck`; no outstanding-PIN
bookkeeping exists in the client. -/
def sendPin (env : ClientEnv) (st : ClientState) (pin : String) :
    ClientResult MsgResponse :=
  call env st MT.PinMatrixAck [("pin", .s pin)]

def sendButtonAck (env : ClientEnv) (st : ClientState) : ClientResult MsgResponse :=
  call env st MT.ButtonAck []

def sendWord (env : ClientEnv) (st : ClientState) (word : String) :
    ClientResult MsgResponse :=
  call env st MT.WordAck [("word", .s word)]

/-- `callWithPinMatrix`: emit a pin-request event when the response is a
`PinMatrixRequest`, and return the response as-is (the PIN is sent
separately via `sendPin`). -/
def callWithPinMatrix (env : ClientEnv) (st : ClientState) (type : Nat)
    (params : Params) : ClientResult MsgResponse :=
  let r := call env st type params
  match r.result with
  | .ok resp =>
    if resp.type = MT.PinMatrixRequest then
      { r with events := r.events ++ [EV.PIN_REQUEST] }
    else r
  | .error _ => r

def changePin (env : ClientEnv) (st : ClientState) (remove : Bool) :
    ClientResult MsgResponse :=
  callWithPinMatrix env st MT.ChangePin [("remove", .b remove)]

/-- `callWithButtonAck`: on a `ButtonRequest` response, emit the event,
auto-acknowledge and return the next response. -/
def callWithButtonAck (env : ClientEnv) (st : ClientState) (type : Nat)
    (params : Params) : ClientResult MsgResponse :=
  let r := call env st type params
  match r.result with
  | .ok resp =>
    if resp.type = MT.ButtonRequest then
      let r2 := sendButtonAck env r.state
      ⟨r2.result, r2.state, r.sent ++ r2.sent,
        r.events ++ [EV.BUTTON_REQUEST] ++ r2.events⟩
    else r
  | .error _ => r

/-- `callWithRecovery`: emit a word-request event when the response is a
`WordRequest`, and return the response as-is. -/
def callWithRecovery (env : ClientEnv) (st : ClientState) (type : Nat)
    (params : Params) : ClientResult MsgResponse :=
  let r := call env st type params
  match r.result with
  | .ok resp =>
    if resp.type = MT.WordRequest then
      { r with events := r.events ++ [EV.WORD_REQUEST] }
    else r
  | .error _ => r

/-- `getFeatures`: `call(Initialize, {})` and cast the response message. -/
def getFeatures (env : ClientEnv) (st : ClientState) : ClientResult DeviceFeatures :=
  let r := call env st MT.Initialize []
  match r.result with
  | .ok resp => ⟨.ok (featuresOfPayload resp.message), r.state, r.sent, r.events⟩
  | .error e => ⟨.error e, r.state, r.sent, r.events⟩

/-- `clearSession`: `call(ClearSession, {})`, then null the session id. -/
def clearSession (env : ClientEnv) (st : ClientState) : ClientResult Unit :=
  let r := call env st MT.ClearSession []
  match r.result with
  | .ok _ => ⟨.ok (), { r.state with sessionId := none }, r.sent, r.events⟩
  | .error e => ⟨.error e, r.state, r.sent, r.events⟩

/-- `disconnect`: early-return when not connected; otherwise clear the
session and reset the fields, wrapping and re-throwing any error raised on
the way (the catch block re-throws `Failed to disconnect: …`). -/
def disconnect (env : ClientEnv) (st : ClientState) : ClientResult Unit :=
  if st.connected = false then
    ⟨.ok (), st, [], []⟩
  else
    let r := clearSession env st
    match r.result with
    | .ok _ =>
      ⟨.ok (), { r.state with connected := false, device := none, sessionId := none },
        r.sent, r.events ++ [EV.DISCONNECTED]⟩
    | .error e => ⟨.error ("Failed to disconnect: " ++ e), r.state, r.sent, r.events⟩

/-- `connectUsbHid`: build the handle from the config (path defaults to
the empty string), flip the connected flag, then fetch and cache the
features. -/
def connectUsbHid (env : ClientEnv) (st : ClientState) : ClientResult KKDevice :=
  let device : KKDevice :=
    { path := st.config.devicePath.getD "", vendorId := st.config.vendorId,
      productId := st.config.productId }
  let st1 := { st with device := some device, connected := true }
  let r := getFeatures env st1
  match r.result with
  | .error e => ⟨.error e, r.state, r.sent, r.events⟩
  | .ok f =>
    let device2 := { device with features := some f, label := some f.label }
    ⟨.ok device2, { r.state with device := some device2 }, r.sent,
      r.events ++ [EV.CONNECTED]⟩

/-- `connectWebUsb`: like `connectUsbHid` with the fixed path `webusb`. -/
def connectWebUsb (env : ClientEnv) (st : ClientState) : ClientResult KKDevice :=
  let device : KKDevice :=
    { path := "webusb", vendorId := st.config.vendorId,
      productId := st.config.productId }
  let st1 := { st with device := some device, connected := true }
  let r := getFeatures env st1
  match r.result with
  | .error e => ⟨.error e, r.state, r.sent, r.events⟩
  | .ok f =>
    let device2 := { device with features := some f, label := some f.label }
    ⟨.ok device2, { r.state with device := some device2 }, r.sent,
      r.events ++ [EV.CONNECTED]⟩

/-- `connectDesktop`: take the first device from `GET /devices`; no
initialization call and no feature fetch. -/
def connectDesktop (env : ClientEnv) (st : ClientState) : ClientResult KKDevice :=
  match env.desktopDevices with
  | [] => ⟨.error "No KeepKey device found via Desktop", st, [], []⟩
  | d :: _ =>
    ⟨.ok d, { st with device := some d, connected := true }, [], [EV.CONNECTED]⟩

/-- `connectBridge`: enumerate, acquire a session for the first device,
then fetch and cache the features. -/
def connectBridge (env : ClientEnv) (st : ClientState) : ClientResult KKDevice :=
  match env.bridgeEnumerate with
  | [] => ⟨.error "No KeepKey device found via Bridge", st, [], []⟩
  | d :: _ =>
    let device : KKDevice :=
      { path := d.path, vendorId := st.config.vendorId,
        productId := st.config.productId }
    let st1 :=
      { st with
        sessionId := some env.acquireToken, device := some device,
        connected := true }
    let r := getFeatures env st1
    match r.result with
    | .error e => ⟨.error e, r.state, r.sent, r.events⟩
    | .ok f =>
      let device2 := { device with features := some f, label := some f.label }
      ⟨.ok device2, { r.state with device := some device2 }, r.sent,
        r.events ++ [EV.CONNECTED]⟩

/-- `connect`: dispatch on the configured connection type; the catch block
emits a failure event and re-throws. -/
def connect (env : ClientEnv) (st : ClientState) : ClientResult KKDevice :=
  let r := match st.config.connectionType with
    | .usbHid => connectUsbHid env st
    | .webusb => connectWebUsb env st
    | .keepkeyDesktop => connectDesktop env st
    | .keepkeyBridge => connectBridge env st
  match r.result with
  | .ok _ => r
  | .error _ => { r with events := r.events ++ [EV.FAILURE] }

end KeepKeyClient

/-! ### Interactive-operation message construction (`resetDevice`,
`recoverDevice`).  JavaScript `x || d` takes `d` whenever `x` is falsy
(`undefined`, `false`, `0`, `''`). -/

def jsOrBool : Option Bool → Bool → Bool
  | some true, _ => true
  | some false, d => d
  | none, d => d

def jsOrNat : Option Nat → Nat → Nat
  | some 0, d => d
  | some (n + 1), _ => n + 1
  | none, d => d

def jsOrStr : Option String → String → String
  | some s, d => if s = "" then d else s
  | none, d => d

structure ResetParams where
  strength : Option Nat := none
  passphrase_protection : Option Bool := none
  pin_protection : Option Bool := none
  label : Option String := none
  language : Option String := none
  skip_backup : Option Bool := none

structure RecoverParams where
  word_count : Nat
  passphrase_protection : Option Bool := none
  pin_protection : Option Bool := none
  label : Option String := none
  language : Option String := none
  enforce_wordlist : Option Bool := none
  type : Option Nat := none
  dry_run : Option Bool := none

/-- The message object `resetDevice` passes to `callWithButtonAck`. -/
def resetDeviceMessage (params : ResetParams) : Params :=
  [("display_random", .b true),
   ("strength", .n (jsOrNat params.strength 256)),
   ("passphrase_protection", .b (jsOrBool params.passphrase_protection false)),
   ("pin_protection", .b (jsOrBool params.pin_protection true)),
   ("label", .s (jsOrStr params.label "")),
   ("language", .s (jsOrStr params.language "en-US")),
   ("skip_backup", .b (jsOrBool params.skip_backup false))]

/-- The message object `recoverDevice` passes to `callWithRecovery`
(`enforce_wordlist: params.enforce_wordlist !== false`). -/
def recoverDeviceMessage (params : RecoverParams) : Params :=
  [("word_count", .n params.word_count),
   ("passphrase_protection", .b (jsOrBool params.passphrase_protection false)),
   ("pin_protection", .b (jsOrBool params.pin_protection true)),
   ("label", .s (jsOrStr params.label "")),
   ("language", .s (jsOrStr params.language "en-US")),
   ("enforce_wordlist",
     .b (match params.enforce_wordlist with | some false => false | _ => true)),
   ("type", .n (jsOrNat params.type 0)),
   ("dry_run", .b (jsOrBool params.dry_run false))]

def resetDevice (env : ClientEnv) (st : ClientState) (params : ResetParams) :
    ClientResult MsgResponse :=
  KeepKeyClient.callWithButtonAck env st MT.ResetDevice (resetDeviceMessage params)

def recoverDevice (env : ClientEnv) (st : ClientState) (params : RecoverParams) :
    ClientResult MsgResponse :=
  KeepKeyClient.callWithRecovery env st MT.RecoveryDevice (recoverDeviceMessage params)

def lookupParam (k : String) : Params → Option JsValue
  | [] => none
  | (k2, v) :: rest => if k2 = k then some v else lookupParam k rest

/-! ### Concrete fixtures -/

def initState (cfg : TransportConfig) : ClientState := { config := cfg }

/-- Features whose `device_id` is empty (claim C5's initialization-failure
scenario). -/
def emptyIdFeatures : DeviceFeatures := { device_id := "", label := "KK" }

def usbCfg : TransportConfig := { connectionType := .usbHid }

def desktopCfg : TransportConfig := { connectionType := .keepkeyDesktop }

def bridgeCfg : TransportConfig := { connectionType := .keepkeyBridge }

/-- A device answering `Initialize` with the empty-id features and
anything else with `Success`. -/
def usbEnv : ClientEnv :=
  { call := fun t _ =>
      if t = MT.Initialize then .ok ⟨MT.Features, .features emptyIdFeatures⟩
      else .ok ⟨MT.Success, .raw []⟩,
    desktopDevices := [], bridgeEnumerate := [], acquireToken := "sess" }

def desktopDev : KKDevice := { path := "kk-desktop", vendorId := 0x2b24, productId := 1 }

def desktopEnv : ClientEnv :=
  { call := fun _ _ => .ok ⟨MT.Success, .raw []⟩,
    desktopDevices := [desktopDev], bridgeEnumerate := [], acquireToken := "sess2" }

/-- A device answering `ChangePin` with a `PinMatrixRequest` and anything
else (in particular `PinMatrixAck`) with `Success`. -/
def pinEnv : ClientEnv :=
  { call := fun t _ =>
      if t = MT.ChangePin then .ok ⟨MT.PinMatrixRequest, .raw []⟩
      else .ok ⟨MT.Success, .raw []⟩,
    desktopDevices := [desktopDev], bridgeEnumerate := [], acquireToken := "sess3" }

def bridgeEnv : ClientEnv :=
  { call := fun t _ =>
      if t = MT.Initialize then .ok ⟨MT.Features, .features emptyIdFeatures⟩
      else .ok ⟨MT.Success, .raw []⟩,
    desktopDevices := [], bridgeEnumerate := [{ path := "p" }], acquireToken := "bsess" }

def connectedDesktopState : ClientState :=
  { config := desktopCfg, device := some desktopDev, connected := true }

def usbConnState : ClientState :=
  { config := usbCfg,
    device := some { path := "p", vendorId := 0x2b24, productId := 1 },
    connected := true }

/-! ### Helper lemmas about the client -/

theorem call_state_eq (env : ClientEnv) (st : ClientState) (t : Nat) (p : Params) :
    (KeepKeyClient.call env st t p).state = st := by
  unfold KeepKeyClient.call
  split
  · rfl
  · split <;> rfl

theorem clearSession_state_connected (env : ClientEnv) (st : ClientState) :
    (KeepKeyClient.clearSession env st).state.connected = st.connected := by
  unfold KeepKeyClient.clearSession
  cases h : (KeepKeyClient.call env st MT.ClearSession []).result <;>
    simp [h, call_state_eq]

/-! ### Claim theorems about the client -/

/-- C7 — `call()` on a client whose connected flag is down fails with the
`Device not connected` error, leaves the state unchanged, sends no
protocol message and emits no event, for every message type, payload, and
environment. -/
theorem call_not_connected (env : ClientEnv) (st : ClientState) (t : Nat)
    (p : Params) (h : st.connected = false) :
    KeepKeyClient.call env st t p = ⟨.error "Device not connected", st, [], []⟩ := by
  simp [KeepKeyClient.call, h]

/-- Witness for `call_not_connected` on a freshly constructed client. -/
theorem call_not_connected_witness :
    KeepKeyClient.call usbEnv (initState usbCfg) MT.Ping [] =
      ⟨.error "Device not connected", initState usbCfg, [], []⟩ :=
  call_not_connected usbEnv (initState usbCfg) MT.Ping [] rfl

/-- C4 counterexample — after `changePin` returns a `PinMatrixRequest`
(leaving the state unchanged), `sendPin("1234")` succeeds; and since the
state is again unchanged, a second identical `sendPin` invocation also
succeeds and also sends a `PinMatrixAck` to the device, rather than
failing fast with a caller error. -/
theorem second_sendPin_still_sends_ack :
    (KeepKeyClient.changePin pinEnv connectedDesktopState false).result =
      .ok ⟨MT.PinMatrixRequest, .raw []⟩ ∧
    (KeepKeyClient.changePin pinEnv connectedDesktopState false).state =
      connectedDesktopState ∧
    (KeepKeyClient.sendPin pinEnv connectedDesktopState "1234").result =
      .ok ⟨MT.Success, .raw []⟩ ∧
    (KeepKeyClient.sendPin pinEnv connectedDesktopState "1234").state =
      connectedDesktopState ∧
    (KeepKeyClient.sendPin pinEnv connectedDesktopState "1234").sent =
      [(MT.PinMatrixAck, [("pin", .s "1234")])] := by
  refine ⟨rfl, rfl, rfl, rfl, rfl⟩

/-- C4 amended — the client keeps no outstanding-confirmation state:
`sendPin` on any connected desktop- or bridge-backed client always sends
exactly one `PinMatrixAck` carrying the pin, returns whatever the device
answers, and leaves the client state unchanged — regardless of whether a
PIN request is outstanding. -/
theorem sendPin_is_stateless (env : ClientEnv) (st : ClientState) (pin : String)
    (hconn : st.connected = true)
    (hkind : st.config.connectionType = ConnType.keepkeyDesktop ∨
      st.config.connectionType = ConnType.keepkeyBridge) :
    (KeepKeyClient.sendPin env st pin).result =
      env.call MT.PinMatrixAck [("pin", .s pin)] ∧
    (KeepKeyClient.sendPin env st pin).sent =
      [(MT.PinMatrixAck, [("pin", .s pin)])] ∧
    (KeepKeyClient.sendPin env st pin).state = st := by
  rcases hkind with h | h <;>
    simp [KeepKeyClient.sendPin, KeepKeyClient.call, hconn, h]

/-- Witness for `sendPin_is_stateless` on the connected desktop client. -/
theorem sendPin_is_stateless_witness :
    (KeepKeyClient.sendPin pinEnv connectedDesktopState "1234").result =
      pinEnv.call MT.PinMatrixAck [("pin", .s "1234")] ∧
    (KeepKeyClient.sendPin pinEnv connectedDesktopState "1234").sent =
      [(MT.PinMatrixAck, [("pin", .s "1234")])] ∧
    (KeepKeyClient.sendPin pinEnv connectedDesktopState "1234").state =
      connectedDesktopState :=
  sendPin_is_stateless pinEnv connectedDesktopState "1234" rfl (Or.inl rfl)

/-- C5 counterexample — `connect()` over the desktop transport succeeds
while sending no protocol message at all: the initialization call is never
issued (and consequently no device-id is ever checked). -/
theorem connect_desktop_skips_initialize :
    (KeepKeyClient.connect desktopEnv (initState desktopCfg)).result = .ok desktopDev ∧
    (KeepKeyClient.connect desktopEnv (initState desktopCfg)).sent = [] := by
  refine ⟨rfl, rfl⟩

/-- C5 amended — over the bridge transport, `connect()` immediately
issues exactly one `Initialize` call and caches the returned features and
label on the handle; it succeeds for every features record, including one
with an empty `device_id` (no `InitializationFailed` check exists).  The
desktop kind skips `Initialize` entirely, and the USB-HID/WebUSB kinds can
never complete `connect` because their `call` stubs throw. -/
theorem connect_bridge_initializes (env : ClientEnv) (cfg : TransportConfig)
    (t : Nat) (f : DeviceFeatures) (d : BridgeDevice) (rest : List BridgeDevice)
    (henum : env.bridgeEnumerate = d :: rest)
    (henv : env.call MT.Initialize [] = .ok ⟨t, .features f⟩)
    (hkind : cfg.connectionType = ConnType.keepkeyBridge) :
    (KeepKeyClient.connect env (initState cfg)).sent = [(MT.Initialize, [])] ∧
    (KeepKeyClient.connect env (initState cfg)).result =
      .ok { path := d.path, vendorId := cfg.vendorId,
            productId := cfg.productId, label := some f.label,
            features := some f } ∧
    (KeepKeyClient.connect env (initState cfg)).state.connected = true := by
  refine ⟨?_, ?_, ?_⟩ <;>
    simp [KeepKeyClient.connect, hkind, KeepKeyClient.connectBridge, henum,
      KeepKeyClient.getFeatures, KeepKeyClient.call, initState, henv,
      featuresOfPayload]

/-- Witness for `connect_bridge_initializes` with a device reporting an
empty `device_id`: connect still succeeds. -/
theorem connect_bridge_initializes_witness :
    (KeepKeyClient.connect bridgeEnv (initState bridgeCfg)).sent =
      [(MT.Initialize, [])] ∧
    (KeepKeyClient.connect bridgeEnv (initState bridgeCfg)).result =
      .ok { path := "p", vendorId := bridgeCfg.vendorId,
            productId := bridgeCfg.productId, label := some emptyIdFeatures.label,
            features := some emptyIdFeatures } ∧
    (KeepKeyClient.connect bridgeEnv (initState bridgeCfg)).state.connected = true :=
  connect_bridge_initializes bridgeEnv bridgeCfg MT.Features emptyIdFeatures
    { path := "p" } [] rfl rfl rfl

/-- C6 counterexample — on a connected USB-HID client, `disconnect()`
throws (the `ClearSession` call fails, and the catch block wraps and
re-throws) and the client remains in the connected state. -/
theorem disconnect_throws_on_connected_usb :
    (KeepKeyClient.disconnect usbEnv usbConnState).result =
      .error "Failed to disconnect: USB HID transport requires native module" ∧
    (KeepKeyClient.disconnect usbEnv usbConnState).state.connected = true := by
  refine ⟨rfl, rfl⟩

/-- C6 amended — `disconnect()` on an already-disconnected client is a
no-op that does not throw; on a connected client it re-throws a wrapped
`Failed to disconnect: …` error and stays connected whenever the session
clearing fails, and transitions to disconnected only when it succeeds. -/
theorem disconnect_behavior (env : ClientEnv) (st : ClientState) :
    (st.connected = false → KeepKeyClient.disconnect env st = ⟨.ok (), st, [], []⟩) ∧
    (st.connected = true →
      exOk (KeepKeyClient.clearSession env st).result = false →
      (KeepKeyClient.disconnect env st).result =
        .error ("Failed to disconnect: " ++
          exErrMsg (KeepKeyClient.clearSession env st).result) ∧
      (KeepKeyClient.disconnect env st).state.connected = true) ∧
    (st.connected = true →
      exOk (KeepKeyClient.clearSession env st).result = true →
      (KeepKeyClient.disconnect env st).result = .ok () ∧
      (KeepKeyClient.disconnect env st).state.connected = false) := by
  refine ⟨?_, ?_, ?_⟩
  · intro h
    simp [KeepKeyClient.disconnect, h]
  · intro hconn hfail
    have hnc : ¬ st.connected = false := by simp [hconn]
    cases hres : (KeepKeyClient.clearSession env st).result with
    | ok v => rw [hres] at hfail; simp [exOk] at hfail
    | error e =>
      have hsc := clearSession_state_connected env st
      constructor
      · simp [KeepKeyClient.disconnect, hnc, hres, exErrMsg]
      · simp [KeepKeyClient.disconnect, hnc, hres, hsc, hconn]
  · intro hconn hok
    have hnc : ¬ st.connected = false := by simp [hconn]
    cases hres : (KeepKeyClient.clearSession env st).result with
    | error e => rw [hres] at hok; simp [exOk] at hok
    | ok v =>
      constructor
      · simp [KeepKeyClient.disconnect, hnc, hres]
      · simp [KeepKeyClient.disconnect, hnc, hres]

/-- Witness for `disconnect_behavior` on the connected USB-HID client,
whose `ClearSession` call fails. -/
theorem disconnect_behavior_witness :
    (KeepKeyClient.disconnect usbEnv usbConnState).result =
      .error ("Failed to disconnect: " ++
        exErrMsg (KeepKeyClient.clearSession usbEnv usbConnState).result) ∧
    (KeepKeyClient.disconnect usbEnv usbConnState).state.connected = true :=
  (disconnect_behavior usbEnv usbConnState).2.1 rfl rfl

/-- C8 counterexample — a USB-HID client constructed without a device path
connects successfully, ending with `connected = true` while the handle's
path is the empty string. -/
theorem connected_usb_handle_empty_path :
    (KeepKeyClient.connect usbEnv (initState usbCfg)).state.connected = true ∧
    ((KeepKeyClient.connect usbEnv (initState usbCfg)).state.device).map
      KKDevice.path = some "" := by
  refine ⟨rfl, rfl⟩

/-- C8 amended — the bridge half of the invariant holds: a successful
bridge connect (in the client and in the standalone bridge transport)
always leaves `connected = true` together with a non-null session token;
the USB half fails because the device path defaults to the empty string. -/
theorem bridge_connected_implies_session (env : ClientEnv) (cfg : TransportConfig)
    (t : Nat) (f : DeviceFeatures) (d : BridgeDevice) (rest : List BridgeDevice)
    (benv : BridgeDaemon) (bst : BTState) (bdev : BridgeDevice) (bst2 : BTState)
    (hkind : cfg.connectionType = ConnType.keepkeyBridge)
    (henum : env.bridgeEnumerate = d :: rest)
    (henv : env.call MT.Initialize [] = .ok ⟨t, .features f⟩)
    (hbt : BridgeTransport.connect benv bst none = .ok (bdev, bst2)) :
    (KeepKeyClient.connect env (initState cfg)).state.connected = true ∧
    (KeepKeyClient.connect env (initState cfg)).state.sessionId =
      some env.acquireToken ∧
    bst2.connected = true ∧ bst2.session = some benv.acquireToken := by
  have hclient :
      (KeepKeyClient.connect env (initState cfg)).state.connected = true ∧
      (KeepKeyClient.connect env (initState cfg)).state.sessionId =
        some env.acquireToken := by
    constructor <;>
      simp [KeepKeyClient.connect, hkind, KeepKeyClient.connectBridge, henum,
        KeepKeyClient.getFeatures, KeepKeyClient.call, initState, henv,
        featuresOfPayload]
  cases he : benv.enumerate with
  | nil =>
    rw [BridgeTransport.connect, he] at hbt
    exact absurd hbt (by simp)
  | cons d0 rest2 =>
    rw [BridgeTransport.connect, he] at hbt
    simp at hbt
    obtain ⟨-, hst2⟩ := hbt
    refine ⟨hclient.1, hclient.2, ?_, ?_⟩ <;> rw [← hst2]

/-- The transport state `BridgeTransport.connect` produces against the
rotated daemon, starting from a fresh transport. -/
def rotatedBTState : BTState :=
  { session := some "s3", device := some { path := "p", session := some "s3" },
    connected := true }

/-- Witness for `bridge_connected_implies_session` on the concrete bridge
environment and the rotated daemon. -/
theorem bridge_connected_implies_session_witness :
    (KeepKeyClient.connect bridgeEnv (initState bridgeCfg)).state.connected = true ∧
    (KeepKeyClient.connect bridgeEnv (initState bridgeCfg)).state.sessionId =
      some bridgeEnv.acquireToken ∧
    rotatedBTState.connected = true ∧
    rotatedBTState.session = some rotatedDaemon.acquireToken :=
  bridge_connected_implies_session bridgeEnv bridgeCfg MT.Features emptyIdFeatures
    { path := "p" } [] rotatedDaemon {} { path := "p", session := some "s3" }
    rotatedBTState rfl rfl rfl rfl

/-- C10 — `resetDevice` and `recoverDevice` always place
`pin_protection = true` in the outgoing message, for every caller-supplied
parameter record: `params.pin_protection || true` is `true` even when the
caller passes `false`. -/
theorem reset_recover_pin_protection_forced (p : ResetParams) (q : RecoverParams) :
    lookupParam "pin_protection" (resetDeviceMessage p) = some (.b true) ∧
    lookupParam "pin_protection" (recoverDeviceMessage q) = some (.b true) := by
  have h : ∀ x : Option Bool, jsOrBool x true = true := by
    intro x
    rcases x with - | b
    · rfl
    · cases b <;> rfl
  have e1 : lookupParam "pin_protection" (resetDeviceMessage p) =
      some (.b (jsOrBool p.pin_protection true)) := rfl
  have e2 : lookupParam "pin_protection" (recoverDeviceMessage q) =
      some (.b (jsOrBool q.pin_protection true)) := rfl
  rw [e1, e2, h p.pin_protection, h q.pin_protection]
  exact ⟨rfl, rfl⟩

/-! ## Derivation-path conversions (`constants/networks.ts`)

`pathStringToArray` / `pathArrayToString` work on JavaScript strings; we
model strings as `List Char`.  `parseInt(s, 10)` is modelled on its
behaviour for the inputs these functions build: it reads the leading run
of decimal digits and yields `NaN` (here `none`) when there is none.  An
array entry that would be `NaN` in JavaScript is modelled as `none`, so
`pathStringToArray` returns a `List (Option Nat)`. -/

def HARDENED_OFFSET : Nat := 0x80000000

/-- The apostrophe character `'` marking a hardened path segment. -/
def tick : Char := Char.ofNat 39

def digitChar : Nat → Char
  | 0 => '0'
  | 1 => '1'
  | 2 => '2'
  | 3 => '3'
  | 4 => '4'
  | 5 => '5'
  | 6 => '6'
  | 7 => '7'
  | 8 => '8'
  | 9 => '9'
  | _ => '0'

def isDigitCh (c : Char) : Bool := decide (48 ≤ c.toNat ∧ c.toNat ≤ 57)

/-- Big-endian decimal rendering, fuel-structured (`value.toString()`). -/
def renderNatAux : Nat → Nat → List Char → List Char
  | 0, _, acc => acc
  | fuel + 1, n, acc =>
    if n = 0 then acc
    else renderNatAux fuel (n / 10) (digitChar (n % 10) :: acc)

def renderNat (n : Nat) : List Char :=
  if n = 0 then ['0'] else renderNatAux (n + 1) n []

def digitsToNat (ds : List Char) : Nat :=
  ds.foldl (fun a c => 10 * a + (c.toNat - 48)) 0

/-- `parseInt(s, 10)` on digit-leading input: the value of the leading
digit run, `NaN` (= `none`) when the string does not start with a digit. -/
def jsParseInt (cs : List Char) : Option Nat :=
  let ds := cs.takeWhile isDigitCh
  if ds.isEmpty then none else some (digitsToNat ds)

/-- `part.endsWith(c)` for a one-character suffix. -/
def endsWithChar (c : Char) (p : List Char) : Bool :=
  match p.getLast? with
  | some x => x == c
  | none => false

/-- JavaScript `String.prototype.split` with a one-character separator. -/
def splitOnChar (sep : Char) : List Char → List (List Char)
  | [] => [[]]
  | x :: xs =>
    if x == sep then [] :: splitOnChar sep xs
    else
      match splitOnChar sep xs with
      | [] => [[x]]
      | p :: ps => (x :: p) :: ps

/-- `Array.prototype.join` with a one-character separator. -/
def joinWith (sep : Char) : List (List Char) → List Char
  | [] => []
  | [p] => p
  | p :: ps => p ++ sep :: joinWith sep ps

/-- `path.replace('m/', '')`: drop the first occurrence of `m/`. -/
def replaceFirstMSlash : List Char → List Char
  | 'm' :: '/' :: rest => rest
  | x :: xs => x :: replaceFirstMSlash xs
  | [] => []

/-- One segment of `pathStringToArray`'s map: detect the hardened suffix
(`'` or `h`), strip all `'`/`h` characters (`replace(/['h]/g, '')`),
parse, and add the hardened offset. -/
def parsePart (p : List Char) : Option Nat :=
  let hardened := endsWithChar tick p || endsWithChar 'h' p
  let cleaned := p.filter (fun c => !(c == tick || c == 'h'))
  match jsParseInt cleaned with
  | some v => some (if hardened then v + HARDENED_OFFSET else v)
  | none => none

/-- One segment of `pathArrayToString`'s map. -/
def partChars (n : Nat) : List Char :=
  if HARDENED_OFFSET ≤ n then renderNat (n - HARDENED_OFFSET) ++ [tick]
  else renderNat n

def pathArrayToString (pathArray : List Nat) : List Char :=
  'm' :: '/' :: joinWith '/' (pathArray.map partChars)

def pathStringToArray (path : List Char) : List (Option Nat) :=
  (splitOnChar '/' (replaceFirstMSlash path)).map parsePart

example : pathArrayToString [0x8000002C, 0] =
    ['m', '/', '4', '4', tick, '/', '0'] := by decide

example : pathStringToArray (pathArrayToString [0x8000002C, 0x80000000, 5]) =
    [some 0x8000002C, some 0x80000000, some 5] := by decide

/-! ### Decimal rendering readback -/

theorem digitChar_isDig (d : Nat) (h : d < 10) : isDigitCh (digitChar d) = true := by
  interval_cases d <;> decide

theorem digitChar_toNat (d : Nat) (h : d < 10) : (digitChar d).toNat = 48 + d := by
  interval_cases d <;> decide

theorem renderNatAux_acc (fuel : Nat) : ∀ (n : Nat) (acc : List Char),
    renderNatAux fuel n acc = renderNatAux fuel n [] ++ acc := by
  induction fuel with
  | zero => intro n acc; simp [renderNatAux]
  | succ fuel ih =>
    intro n acc
    by_cases hn : n = 0
    · simp [renderNatAux, hn]
    · rw [renderNatAux, renderNatAux, if_neg hn, if_neg hn, ih (n / 10),
        ih (n / 10) [digitChar (n % 10)]]
      simp

theorem renderNatAux_fuel (n : Nat) : ∀ fuel₁ fuel₂ : Nat, n < fuel₁ → n < fuel₂ →
    renderNatAux fuel₁ n [] = renderNatAux fuel₂ n [] := by
  induction n using Nat.strong_induction_on with
  | _ n ih =>
    intro fuel₁ fuel₂ h₁ h₂
    match fuel₁, fuel₂ with
    | f₁ + 1, f₂ + 1 =>
      by_cases hn : n = 0
      · simp [renderNatAux, hn]
      · rw [renderNatAux, renderNatAux, if_neg hn, if_neg hn, renderNatAux_acc,
          renderNatAux_acc f₂, ih (n / 10) (Nat.div_lt_self (by omega) (by omega))
            f₁ f₂ (by omega) (by omega)]

theorem renderNatAux_digits (fuel : Nat) : ∀ (n : Nat) (acc : List Char),
    (∀ c ∈ acc, isDigitCh c = true) →
    ∀ c ∈ renderNatAux fuel n acc, isDigitCh c = true := by
  induction fuel with
  | zero => intro n acc hacc; simpa [renderNatAux] using hacc
  | succ fuel ih =>
    intro n acc hacc c hc
    rw [renderNatAux] at hc
    by_cases hn : n = 0
    · rw [if_pos hn] at hc; exact hacc c hc
    · rw [if_neg hn] at hc
      refine ih (n / 10) _ ?_ c hc
      intro x hx
      rcases List.mem_cons.mp hx with rfl | hx
      · exact digitChar_isDig _ (Nat.mod_lt n (by omega))
      · exact hacc x hx

theorem renderNat_digits (n : Nat) : ∀ c ∈ renderNat n, isDigitCh c = true := by
  by_cases hn : n = 0
  · subst hn; decide
  · rw [renderNat, if_neg hn]
    exact renderNatAux_digits (n + 1) n [] (by simp)

theorem renderNat_ne_nil (n : Nat) : renderNat n ≠ [] := by
  by_cases hn : n = 0
  · subst hn; decide
  · rw [renderNat, if_neg hn, renderNatAux, if_neg hn, renderNatAux_acc]
    simp

theorem digitsToNat_append_one (xs : List Char) (c : Char) :
    digitsToNat (xs ++ [c]) = 10 * digitsToNat xs + (c.toNat - 48) := by
  simp [digitsToNat, List.foldl_append]

theorem renderNatAux_readback (n : Nat) : ∀ fuel : Nat, n ≠ 0 → n < fuel →
    digitsToNat (renderNatAux fuel n []) = n := by
  induction n using Nat.strong_induction_on with
  | _ n ih =>
    intro fuel hn hf
    match fuel with
    | f + 1 =>
      rw [renderNatAux, if_neg hn, renderNatAux_acc]
      by_cases h10 : n < 10
      · have : n / 10 = 0 := Nat.div_eq_of_lt h10
        rw [this]
        have hz : renderNatAux f 0 [] = [] := by
          match f with
          | 0 => rfl
          | f + 1 => simp [renderNatAux]
        rw [hz]
        simp [digitsToNat, digitChar_toNat (n % 10) (Nat.mod_lt n (by omega))]
        omega
      · rw [digitsToNat_append_one,
          ih (n / 10) (Nat.div_lt_self (by omega) (by omega)) f (by omega) (by omega),
          digitChar_toNat (n % 10) (Nat.mod_lt n (by omega))]
        omega

theorem digitsToNat_renderNat (n : Nat) : digitsToNat (renderNat n) = n := by
  by_cases hn : n = 0
  · subst hn; decide
  · rw [renderNat, if_neg hn]
    exact renderNatAux_readback n (n + 1) hn (by omega)

theorem takeWhile_all {l : List Char} {p : Char → Bool}
    (h : ∀ c ∈ l, p c = true) : l.takeWhile p = l :=
  List.takeWhile_eq_self_iff.mpr h

theorem jsParseInt_renderNat (n : Nat) : jsParseInt (renderNat n) = some n := by
  rw [jsParseInt]
  rw [takeWhile_all (renderNat_digits n)]
  rw [List.isEmpty_eq_false_iff_exists_mem.mpr ?_]
  · simp [digitsToNat_renderNat]
  · rcases List.exists_mem_of_ne_nil (renderNat n) (renderNat_ne_nil n) with ⟨c, hc⟩
    exact ⟨c, hc⟩

/-! ### Digit characters are not `'`, `h`, or `/` -/

theorem isDig_ne_special {c : Char} (h : isDigitCh c = true) :
    (c == tick) = false ∧ (c == 'h') = false ∧ (c == '/') = false := by
  have hb := of_decide_eq_true h
  have ht : tick.toNat = 39 := by decide
  have hh : ('h').toNat = 104 := by decide
  have hs : ('/').toNat = 47 := by decide
  refine ⟨?_, ?_, ?_⟩ <;> rw [beq_eq_false_iff_ne] <;> intro he <;> rw [he] at hb <;>
    omega

/-! ### split / join round trip -/

theorem splitOnChar_no_sep (sep : Char) : ∀ p : List Char,
    (∀ c ∈ p, (c == sep) = false) → splitOnChar sep p = [p] := by
  intro p
  induction p with
  | nil => intro _; rfl
  | cons x xs ih =>
    intro h
    have hx : (x == sep) = false := h x (by simp)
    have hxs : ∀ c ∈ xs, (c == sep) = false :=
      fun c hc => h c (List.mem_cons_of_mem x hc)
    rw [splitOnChar, if_neg (by rw [hx]; exact Bool.false_ne_true), ih hxs]

theorem splitOnChar_append (sep : Char) (rest : List Char) : ∀ p : List Char,
    (∀ c ∈ p, (c == sep) = false) →
    splitOnChar sep (p ++ sep :: rest) = p :: splitOnChar sep rest := by
  intro p
  induction p with
  | nil => intro _; simp [splitOnChar]
  | cons x xs ih =>
    intro h
    have hx : (x == sep) = false := h x (by simp)
    have hxs : ∀ c ∈ xs, (c == sep) = false :=
      fun c hc => h c (List.mem_cons_of_mem x hc)
    rw [List.cons_append, splitOnChar,
      if_neg (by rw [hx]; exact Bool.false_ne_true), ih hxs]

theorem splitOnChar_joinWith (sep : Char) : ∀ parts : List (List Char),
    parts ≠ [] → (∀ p ∈ parts, ∀ c ∈ p, (c == sep) = false) →
    splitOnChar sep (joinWith sep parts) = parts := by
  intro parts
  induction parts with
  | nil => intro h; exact absurd rfl h
  | cons p ps ih =>
    intro _ h
    match ps with
    | [] =>
      have hj : joinWith sep [p] = p := rfl
      rw [hj]
      exact splitOnChar_no_sep sep p (h p (by simp))
    | q :: ps2 =>
      have hj : joinWith sep (p :: q :: ps2) = p ++ sep :: joinWith sep (q :: ps2) :=
        rfl
      have h1 : ∀ r ∈ q :: ps2, ∀ c ∈ r, (c == sep) = false :=
        fun r hr => h r (List.mem_cons_of_mem p hr)
      rw [hj, splitOnChar_append sep _ p (h p (by simp)),
        ih (List.cons_ne_nil q ps2) h1]

/-! ### Per-segment round trip -/

theorem partChars_no_slash (n : Nat) : ∀ c ∈ partChars n, (c == '/') = false := by
  intro c hc
  rw [partChars] at hc
  by_cases hh : HARDENED_OFFSET ≤ n
  · rw [if_pos hh] at hc
    rcases List.mem_append.mp hc with hc | hc
    · exact (isDig_ne_special (renderNat_digits _ c hc)).2.2
    · have : c = tick := by simpa using hc
      subst this; decide
  · rw [if_neg hh] at hc
    exact (isDig_ne_special (renderNat_digits _ c hc)).2.2

theorem endsWithChar_of_digits {l : List Char} (hl : ∀ c ∈ l, isDigitCh c = true) :
    endsWithChar tick l = false ∧ endsWithChar 'h' l = false := by
  rw [endsWithChar, endsWithChar]
  cases h : l.getLast? with
  | none => exact ⟨rfl, rfl⟩
  | some x =>
    have hx : x ∈ l := by
      obtain ⟨hne, rfl⟩ := List.mem_getLast?_eq_getLast (by rw [h]; exact rfl)
      exact List.getLast_mem hne
    have hd := isDig_ne_special (hl x hx)
    exact ⟨hd.1, hd.2.1⟩

theorem filter_digits {l : List Char} (hl : ∀ c ∈ l, isDigitCh c = true) :
    l.filter (fun c => !(c == tick || c == 'h')) = l := by
  rw [List.filter_eq_self]
  intro c hc
  have hd := isDig_ne_special (hl c hc)
  rw [hd.1, hd.2.1]
  rfl

theorem parsePart_partChars (n : Nat) : parsePart (partChars n) = some n := by
  rw [parsePart, partChars]
  by_cases hh : HARDENED_OFFSET ≤ n
  · rw [if_pos hh]
    have hlast : (renderNat (n - HARDENED_OFFSET) ++ [tick]).getLast? = some tick := by
      simp
    have hharden : endsWithChar tick (renderNat (n - HARDENED_OFFSET) ++ [tick]) = true := by
      rw [endsWithChar, hlast]; simp
    have hclean : (renderNat (n - HARDENED_OFFSET) ++ [tick]).filter
        (fun c => !(c == tick || c == 'h')) = renderNat (n - HARDENED_OFFSET) := by
      rw [List.filter_append, filter_digits (renderNat_digits _)]
      simp
    simp only [hharden, Bool.true_or, hclean, jsParseInt_renderNat]
    rw [if_pos trivial]
    have heq : n - HARDENED_OFFSET + HARDENED_OFFSET = n := by omega
    rw [heq]
  · rw [if_neg hh]
    have hend := endsWithChar_of_digits (renderNat_digits n)
    simp only [hend.1, hend.2, Bool.or_self, filter_digits (renderNat_digits n),
      jsParseInt_renderNat]
    rfl

/-- C9 — for every nonempty derivation-path array of 32-bit indices,
rendering it with `pathArrayToString` (hardened index `v + 0x80000000`
printed as `v'`) and parsing the result with `pathStringToArray` yields
back exactly the original entries, preserving each (index, hardened-flag)
pair. -/
theorem path_conversion_roundtrip (a : List Nat) (hne : a ≠ [])
    (_hbound : ∀ n ∈ a, n < 4294967296) :
    pathStringToArray (pathArrayToString a) = a.map some := by
  rw [pathArrayToString, pathStringToArray]
  have hrepl : replaceFirstMSlash
      ('m' :: '/' :: joinWith '/' (a.map partChars)) =
      joinWith '/' (a.map partChars) := rfl
  rw [hrepl, splitOnChar_joinWith '/' (a.map partChars) ?_ ?_]
  · rw [List.map_map]
    have : (parsePart ∘ partChars) = some := funext parsePart_partChars
    rw [this]
  · simpa using hne
  · intro p hp
    rcases List.mem_map.mp hp with ⟨n, _, rfl⟩
    exact partChars_no_slash n

/-- Witness for `path_conversion_roundtrip` at the BIP-44 Bitcoin
derivation path `m/44'/0'/0'/0/0`. -/
theorem path_conversion_roundtrip_witness :
    ([0x8000002C, 0x80000000, 0x80000000, 0, 0] : List Nat) ≠ [] ∧
    (∀ n ∈ ([0x8000002C, 0x80000000, 0x80000000, 0, 0] : List Nat),
      n < 4294967296) ∧
    pathStringToArray (pathArrayToString [0x8000002C, 0x80000000, 0x80000000, 0, 0]) =
      ([0x8000002C, 0x80000000, 0x80000000, 0, 0] : List Nat).map some :=
  ⟨by decide, by decide,
    path_conversion_roundtrip [0x8000002C, 0x80000000, 0x80000000, 0, 0]
      (by decide) (by decide)⟩

end KeepKeySpec
